import Mathlib

/-!
Formal model of the interactive-fixture behavior engine of the
mobile-scene-test scene: the input-reaction state machine for the control
mapping cubes, the trigger-volume stay counter, the single-slot
create/delete fixture, the periodic bullet spawner pool, and the
registration order of the per-frame systems.  All numeric quantities
(times, colors) are modelled as exact rationals: every literal the scene
feeds into these state machines is an exact decimal fraction, and the
sums the claims exercise stay exact in binary floating point as well.
-/

namespace MobileScene

/-- RGBA color, the shallow embedding of a `Color4` value. -/
structure Color where
  r : ℚ
  g : ℚ
  b : ℚ
  a : ℚ
deriving DecidableEq

/-- The input actions referenced by the scene.  `IA_WALK` is part of the
SDK enum but is not listed in `INPUT_ACTIONS`, which lets the model cover
the fallback branches of the lookup helpers. -/
inductive InputAction where
  | IA_POINTER
  | IA_PRIMARY
  | IA_SECONDARY
  | IA_ACTION_3
  | IA_ACTION_4
  | IA_ACTION_5
  | IA_ACTION_6
  | IA_JUMP
  | IA_FORWARD
  | IA_BACKWARD
  | IA_LEFT
  | IA_RIGHT
  | IA_WALK
deriving DecidableEq, Fintype

/-- One row of the `INPUT_ACTIONS` table: action, display name, key
label, and assigned color. -/
structure ActionInfo where
  action : InputAction
  name : String
  key : String
  color : Color

/-- The `INPUT_ACTIONS` constant of the control-mapping code. -/
def INPUT_ACTIONS : List ActionInfo :=
  [ ⟨.IA_POINTER, "POINTER", "Left Click", ⟨1, 0, 0, 1⟩⟩,
    ⟨.IA_PRIMARY, "PRIMARY", "E Key", ⟨0, 1, 0, 1⟩⟩,
    ⟨.IA_SECONDARY, "SECONDARY", "F Key", ⟨0, 0, 1, 1⟩⟩,
    ⟨.IA_ACTION_3, "ACTION_3", "1 Key", ⟨1, 1, 0, 1⟩⟩,
    ⟨.IA_ACTION_4, "ACTION_4", "2 Key", ⟨0, 1, 1, 1⟩⟩,
    ⟨.IA_ACTION_5, "ACTION_5", "3 Key", ⟨1, 0, 1, 1⟩⟩,
    ⟨.IA_ACTION_6, "ACTION_6", "4 Key", ⟨1, 1/2, 0, 1⟩⟩,
    ⟨.IA_JUMP, "JUMP", "Space", ⟨1/2, 0, 1/2, 1⟩⟩,
    ⟨.IA_FORWARD, "FORWARD", "W Key", ⟨1, 1, 1, 1⟩⟩,
    ⟨.IA_BACKWARD, "BACKWARD", "S Key", ⟨1/2, 1/2, 1/2, 1⟩⟩,
    ⟨.IA_LEFT, "LEFT", "A Key", ⟨1, 3/4, 4/5, 1⟩⟩,
    ⟨.IA_RIGHT, "RIGHT", "D Key", ⟨0, 1/2, 1/2, 1⟩⟩ ]

/-- The neutral cube color `DEFAULT_COLOR = Color4.create(0.5, 0.5, 0.5, 1)`. -/
def DEFAULT_COLOR : Color := ⟨1/2, 1/2, 1/2, 1⟩

/-- `getActionColor`: color from the `INPUT_ACTIONS` table, falling back
to the neutral color for an action outside the table. -/
def getActionColor (a : InputAction) : Color :=
  match INPUT_ACTIONS.find? (fun info => decide (info.action = a)) with
  | some info => info.color
  | none => DEFAULT_COLOR

/-- `getActionName`: display name from the `INPUT_ACTIONS` table. -/
def getActionName (a : InputAction) : String :=
  match INPUT_ACTIONS.find? (fun info => decide (info.action = a)) with
  | some info => info.name
  | none => "UNKNOWN"

/-- `INPUT_ACTIONS.findIndex(a => a.action === action)`: the table index
of an action, `-1` when the action is not in the table. -/
def actionIndex (a : InputAction) : Int :=
  match INPUT_ACTIONS.findIdx? (fun info => decide (info.action = a)) with
  | some n => (n : Int)
  | none => -1

/-- Whether an action appears in the `INPUT_ACTIONS` table. -/
def inTable (a : InputAction) : Bool :=
  INPUT_ACTIONS.any (fun info => decide (info.action = a))

/-- The scene-graph material of an entity, as set by
`Material.setPbrMaterial`; each call replaces the whole material, so
fields not passed revert to their defaults (`none` emissive color,
intensity 0). -/
structure MaterialState where
  albedoColor : Color
  emissiveColor : Option Color
  emissiveIntensity : ℚ
deriving DecidableEq

/-- The `CubeInputState` component. -/
structure CubeInputState where
  actions : List InputAction
  currentColor : Int
  isPressed : Bool
  isMasterCube : Bool
deriving DecidableEq

/-- The `HoverState` component. -/
structure HoverState where
  isHovered : Bool
  lastAction : String
deriving DecidableEq

/-- All per-cube state touched by the four input-handling systems. -/
structure CubeState where
  input : CubeInputState
  hover : HoverState
  material : MaterialState
deriving DecidableEq

/-- The polled input-event snapshot of one tick for one cube: for which
actions a `PET_DOWN` / `PET_UP` command was observed, and whether a
hover-enter / hover-leave command was observed. -/
structure TickEvents where
  downs : List InputAction
  ups : List InputAction
  hoverEnter : Bool
  hoverLeave : Bool

/-- Body of the pointer-DOWN system loop for one registered action:
when a down command for that action was observed this tick, record the
press, the pressed action index and name, and recolor the cube. -/
def applyDown (ev : TickEvents) (s : CubeState) (a : InputAction) : CubeState :=
  if a ∈ ev.downs then
    { s with
      input := { s.input with isPressed := true, currentColor := actionIndex a },
      material := ⟨getActionColor a, none, 0⟩,
      hover := { s.hover with lastAction := getActionName a } }
  else s

/-- The pointer-DOWN system: iterates the cube's registered action list
in order, polling the down command for each. -/
def downSystem (ev : TickEvents) (s : CubeState) : CubeState :=
  s.input.actions.foldl (applyDown ev) s

/-- Body of the pointer-UP system loop for one registered action. -/
def applyUp (ev : TickEvents) (s : CubeState) (a : InputAction) : CubeState :=
  if a ∈ ev.ups then
    { s with
      input := { s.input with isPressed := false, currentColor := -1 },
      material := ⟨DEFAULT_COLOR, none, 0⟩ }
  else s

/-- The pointer-UP system. -/
def upSystem (ev : TickEvents) (s : CubeState) : CubeState :=
  s.input.actions.foldl (applyUp ev) s

/-- `INPUT_ACTIONS[i].color` for an integer index, as an optional value:
`none` models the out-of-bounds access the hover systems would perform
if `currentColor` escaped the table range. -/
def colorAt (i : Int) : Option Color :=
  (INPUT_ACTIONS.get? i.toNat).map (fun info => info.color)

/-- The HOVER_ENTER system: marks the cube hovered and applies an
emissive overlay in the currently active action's color (neutral when no
action is active). -/
def hoverEnterSystem (ev : TickEvents) (s : CubeState) : CubeState :=
  if ev.hoverEnter then
    let c := if 0 ≤ s.input.currentColor then
      (colorAt s.input.currentColor).getD DEFAULT_COLOR else DEFAULT_COLOR
    { s with
      hover := { s.hover with isHovered := true },
      material := ⟨c, some c, 3/5⟩ }
  else s

/-- The HOVER_LEAVE system: clears the hover flag and the emissive
overlay, keeping the active action's color (neutral when none). -/
def hoverLeaveSystem (ev : TickEvents) (s : CubeState) : CubeState :=
  if ev.hoverLeave then
    let c := if 0 ≤ s.input.currentColor then
      (colorAt s.input.currentColor).getD DEFAULT_COLOR else DEFAULT_COLOR
    { s with
      hover := { s.hover with isHovered := false },
      material := ⟨c, none, 0⟩ }
  else s

/-- One behavior tick for one cube: the four input-handling systems in
their registration order (DOWN, UP, HOVER_ENTER, HOVER_LEAVE). -/
def cubeTick (ev : TickEvents) (s : CubeState) : CubeState :=
  hoverLeaveSystem ev (hoverEnterSystem ev (upSystem ev (downSystem ev s)))

/-- The state `createInputCube` gives a fresh cube: neutral color, no
press recorded, `currentColor = -1`. -/
def initialCube (actions : List InputAction) (isMaster : Bool) : CubeState :=
  { input := ⟨actions, -1, false, isMaster⟩,
    hover := ⟨false, ""⟩,
    material := ⟨DEFAULT_COLOR, none, 0⟩ }

/-- The cube states reachable from a freshly created cube by any
sequence of ticks with any event snapshots. -/
inductive ReachableCube : CubeState → Prop where
  | init (actions : List InputAction) (isMaster : Bool) :
      ReachableCube (initialCube actions isMaster)
  | tick (ev : TickEvents) (s : CubeState) :
      ReachableCube s → ReachableCube (cubeTick ev s)

/-- A collision signal delivered to the stay-trigger handlers. -/
inductive TriggerSignal where
  | enter
  | stay
  | exit
deriving DecidableEq

/-- Albedo the Enter handler gives the stay trigger (occupied highlight). -/
def STAY_COLOR_INSIDE : Color := ⟨0, 1, 1/2, 3/10⟩

/-- Albedo the Exit handler restores (unoccupied). -/
def STAY_COLOR_OUTSIDE : Color := ⟨0, 1/2, 1/2, 3/10⟩

/-- Occupancy-tracker state of the stay trigger.  `stayCounter` is the
handlers' counter variable; `occupied` mirrors the highlight state the
Enter/Exit handlers toggle (set on Enter, cleared on Exit), which is the
occupancy the trigger volume observes. -/
structure StayState where
  occupied : Bool
  stayCounter : Nat
  albedo : Color
deriving DecidableEq

/-- The three registered stay-trigger handlers: Enter resets the counter
and applies the highlight, Stay increments the counter, Exit restores
the unoccupied visual and leaves the counter untouched. -/
def stayStep (s : StayState) : TriggerSignal → StayState
  | .enter => { occupied := true, stayCounter := 0, albedo := STAY_COLOR_INSIDE }
  | .stay => { s with stayCounter := s.stayCounter + 1 }
  | .exit => { s with occupied := false, albedo := STAY_COLOR_OUTSIDE }

/-- Initial stay-trigger state: counter 0, nobody inside. -/
def stayInit : StayState := ⟨false, 0, STAY_COLOR_OUTSIDE⟩

/-- Deliver a sequence of signals to the stay trigger. -/
def stayRun (sigs : List TriggerSignal) : StayState :=
  sigs.foldl stayStep stayInit

/-- A signal sequence the trigger layer can actually deliver: Enter only
while unoccupied, Stay and Exit only while occupied. -/
def stayWellFormed (s : StayState) : List TriggerSignal → Bool
  | [] => true
  | sig :: rest =>
    (match sig with
      | .enter => !s.occupied
      | .stay => s.occupied
      | .exit => s.occupied) && stayWellFormed (stayStep s sig) rest

/-- `TRIGGER_COLOR_INSIDE = Color4.create(0, 1, 0, 0.2)`. -/
def TRIGGER_COLOR_INSIDE : Color := ⟨0, 1, 0, 1/5⟩

/-- `TRIGGER_COLOR_OUTSIDE = Color4.create(1, 0, 0, 0.2)`. -/
def TRIGGER_COLOR_OUTSIDE : Color := ⟨1, 0, 0, 1/5⟩

/-- State of the create/delete loop fixture: `currentBox` is `none` when
`createDeleteEntity === null` and otherwise holds the live box's albedo;
`timer` is `createDeleteTimer` and `isPlayerInside` is
`isPlayerInsideCreateDelete`. -/
structure ToggleState where
  timer : ℚ
  isPlayerInside : Bool
  currentBox : Option Color
deriving DecidableEq

/-- `CREATE_DELETE_INTERVAL = 1` second. -/
def CREATE_DELETE_INTERVAL : ℚ := 1

/-- `createTestBox`: spawns the box, colored by the remembered occupancy. -/
def createTestBox (s : ToggleState) : ToggleState :=
  let c := if s.isPlayerInside then TRIGGER_COLOR_INSIDE else TRIGGER_COLOR_OUTSIDE
  { s with currentBox := some c }

/-- `deleteTestBox`: removes the box if one exists and always resets the
occupancy flag on delete; with no live box it does nothing. -/
def deleteTestBox (s : ToggleState) : ToggleState :=
  if s.currentBox.isSome then
    { s with currentBox := none, isPlayerInside := false }
  else s

/-- The box's registered onTriggerEnter handler. -/
def toggleBoxEnter (s : ToggleState) : ToggleState :=
  { s with isPlayerInside := true,
           currentBox := if s.currentBox.isSome then some TRIGGER_COLOR_INSIDE else none }

/-- The box's registered onTriggerExit handler. -/
def toggleBoxExit (s : ToggleState) : ToggleState :=
  { s with isPlayerInside := false,
           currentBox := if s.currentBox.isSome then some TRIGGER_COLOR_OUTSIDE else none }

/-- Which branch the create/delete loop system took this tick, observable
through its log lines. -/
inductive ToggleEvent where
  | created
  | deleted
deriving DecidableEq

/-- One tick of the create/delete loop system: advance the timer; at the
interval, reset it and create the box when absent, delete it when live. -/
def toggleTick (dt : ℚ) (s : ToggleState) : ToggleState × Option ToggleEvent :=
  let t := s.timer + dt
  if CREATE_DELETE_INTERVAL ≤ t then
    if s.currentBox.isSome then
      (deleteTestBox { s with timer := 0 }, some .deleted)
    else
      (createTestBox { s with timer := 0 }, some .created)
  else
    ({ s with timer := t }, none)

/-- Initial create/delete fixture state: absent box, timer 0. -/
def toggleInit : ToggleState := ⟨0, false, none⟩

/-- Run the create/delete loop for `n` ticks at dt equal to its interval,
collecting the create/delete events in order. -/
def toggleRun : Nat → ToggleState × List ToggleEvent
  | 0 => (toggleInit, [])
  | n + 1 =>
    let r := toggleRun n
    let t := toggleTick CREATE_DELETE_INTERVAL r.1
    (t.1, r.2 ++ t.2.toList)

/-- The §8 test property's expected trace: create and destroy strictly
alternating, starting with a create. -/
def specAlternatingEvents (n : Nat) : List ToggleEvent :=
  (List.range n).map (fun k => if k % 2 = 0 then .created else .deleted)

/-- Per-spawner configuration of the bullet spawner system. -/
structure SpawnerCfg where
  interval : ℚ
  lifetime : ℚ
deriving DecidableEq

/-- A tracked bullet: its entity (identified by spawn order) and its
recorded absolute death time. -/
structure BulletItem where
  id : Nat
  deathTime : ℚ
deriving DecidableEq

/-- State of the bullet spawner system: `globalTime`, the per-spawner
`spawnerTimers`, the `activeBullets` list in insertion order, the next
fresh entity id, and the ids passed to `engine.removeEntity` so far in
removal order. -/
structure PoolState where
  globalTime : ℚ
  timers : List ℚ
  active : List BulletItem
  nextId : Nat
  destroyedIds : List Nat
deriving DecidableEq

/-- The spawn pass of one tick, iterating the spawners in order paired
with their timers: advance each timer by dt and, when it reaches the
spawner's interval, reset it to 0 and emit one bullet whose death time is
the already-advanced global time plus the spawner's lifetime.  Returns
the updated timers, the bullets spawned this tick in order, and the next
fresh id. -/
def spawnPass (gt dt : ℚ) : List (SpawnerCfg × ℚ) → Nat → List ℚ × List BulletItem × Nat
  | [], nid => ([], [], nid)
  | (cfg, tm) :: rest, nid =>
    let t := tm + dt
    if cfg.interval ≤ t then
      let r := spawnPass gt dt rest (nid + 1)
      (0 :: r.1, ⟨nid, gt + cfg.lifetime⟩ :: r.2.1, r.2.2)
    else
      let r := spawnPass gt dt rest nid
      (t :: r.1, r.2.1, r.2.2)

/-- One tick of the bullet spawner system: advance global time, run the
spawn pass over every spawner, append the new bullets, then run the
despawn pass deleting every bullet whose death time has been reached
(`globalTime >= deathTime`); the backwards index loop of the source
removes expired bullets in reverse list order.  Returns the new state and
the bullets spawned this tick. -/
def poolTickFull (cfgs : List SpawnerCfg) (dt : ℚ) (s : PoolState) :
    PoolState × List BulletItem :=
  let gt := s.globalTime + dt
  let r := spawnPass gt dt (cfgs.zip s.timers) s.nextId
  let act := s.active ++ r.2.1
  ({ globalTime := gt,
     timers := r.1,
     active := act.filter (fun it => decide (gt < it.deathTime)),
     nextId := r.2.2,
     destroyedIds := s.destroyedIds ++
       ((act.filter (fun it => decide (it.deathTime ≤ gt))).map (fun it => it.id)).reverse },
   r.2.1)

/-- One tick of the bullet spawner system, state only. -/
def poolTick (cfgs : List SpawnerCfg) (dt : ℚ) (s : PoolState) : PoolState :=
  (poolTickFull cfgs dt s).1

/-- Fresh spawner-system state for a list of spawners: all timers and the
global clock at 0, no bullets yet. -/
def poolInit (cfgs : List SpawnerCfg) : PoolState :=
  ⟨0, cfgs.map (fun _ => 0), [], 0, []⟩

/-- Run the spawner system over a list of per-tick elapsed times. -/
def poolRunDts (cfgs : List SpawnerCfg) (dts : List ℚ) : PoolState :=
  dts.foldl (fun s dt => poolTick cfgs dt s) (poolInit cfgs)

/-- The single spawner configuration the spec's spawner test property
uses: interval 1.0 s, lifetime 2.0 s. -/
def c1Cfg : List SpawnerCfg := [⟨1, 2⟩]

/-- Ten ticks at a fixed dt of 0.5 s. -/
def c1Dts : List ℚ :=
  [1/2, 1/2, 1/2, 1/2, 1/2, 1/2, 1/2, 1/2, 1/2, 1/2]

/-- The systems the main scene registers with `engine.addSystem`, in
source order.  All use the default priority, and same-priority systems
run in registration order, so this list is the per-tick execution
order.  Trigger enter/stay/exit callbacks are dispatched by the SDK's
own trigger system and are not registered here. -/
inductive SystemTag where
  | createDeleteLoop
  | teleportClick
  | textureRestart
  | pointerDown
  | pointerUp
  | hoverEnterTag
  | hoverLeaveTag
deriving DecidableEq

/-- Registration order of the `engine.addSystem` calls in the main scene
file: the create/delete loop (spawner timer) first, then the teleport
click handler, the texture-tween restart system, and the four
input-handling systems. -/
def registeredSystems : List SystemTag :=
  [.createDeleteLoop, .teleportClick, .textureRestart,
   .pointerDown, .pointerUp, .hoverEnterTag, .hoverLeaveTag]

/-- Position of a system in the per-tick execution order. -/
def sysIndex (t : SystemTag) : Nat :=
  registeredSystems.findIdx (fun x => decide (x = t))

/-- The poll order asserted by the spec's scheduler section, restricted
to the systems this code registers: input-down before input-up before
hover-enter before hover-leave, all before the spawner timer. -/
def claimedPollOrder : Prop :=
  sysIndex .pointerDown < sysIndex .pointerUp ∧
  sysIndex .pointerUp < sysIndex .hoverEnterTag ∧
  sysIndex .hoverEnterTag < sysIndex .hoverLeaveTag ∧
  sysIndex .hoverLeaveTag < sysIndex .createDeleteLoop

/-- The cube state the DOWN system leaves after observing a press of
action `b`: pressed, with `b`'s table index, color and name recorded. -/
def pressedAs (b : InputAction) (t : CubeState) : Prop :=
  t.input.isPressed = true ∧
  t.input.currentColor = actionIndex b ∧
  t.material = ⟨getActionColor b, none, 0⟩ ∧
  t.hover.lastAction = getActionName b

/-- The cube state the UP system leaves after observing a release:
not pressed, no active action, neutral material. -/
def releasedNeutral (t : CubeState) : Prop :=
  t.input.isPressed = false ∧
  t.input.currentColor = -1 ∧
  t.material = ⟨DEFAULT_COLOR, none, 0⟩

/-- The safety invariant of the `currentColor` field: either the
no-action sentinel -1 or a valid index into `INPUT_ACTIONS`. -/
def cubeColorInv (t : CubeState) : Prop :=
  t.input.currentColor = -1 ∨
  (0 ≤ t.input.currentColor ∧
   t.input.currentColor < (INPUT_ACTIONS.length : Int))

theorem foldl_pres {σ α : Type} {f : σ → α → σ} {P : σ → Prop}
    (h : ∀ s a, P s → P (f s a)) :
    ∀ (l : List α) (s : σ), P s → P (l.foldl f s) := by
  intro l
  induction l with
  | nil => intro s hs; exact hs
  | cons a l ih => intro s hs; exact ih (f s a) (h s a hs)

theorem foldl_estab {σ α : Type} {f : σ → α → σ} {P : σ → Prop} {b : α}
    (h : ∀ s a, P s → P (f s a)) (g : ∀ s, P (f s b)) :
    ∀ (l : List α) (s : σ), b ∈ l → P (l.foldl f s) := by
  intro l
  induction l with
  | nil => intro s hb; cases hb
  | cons a l ih =>
    intro s hb
    rcases List.mem_cons.mp hb with h1 | h2
    · subst h1
      exact foldl_pres h l (f s b) (g s)
    · exact ih (f s a) h2

theorem foldl_fix {σ α : Type} {f : σ → α → σ} (h : ∀ s a, f s a = s) :
    ∀ (l : List α) (s : σ), l.foldl f s = s := by
  intro l
  induction l with
  | nil => intro s; rfl
  | cons a l ih => intro s; rw [List.foldl_cons, h s a]; exact ih s

theorem downSystem_actions (ev : TickEvents) (s : CubeState) :
    (downSystem ev s).input.actions = s.input.actions := by
  unfold downSystem
  refine foldl_pres (P := fun t : CubeState => t.input.actions = s.input.actions) ?_ _ _ rfl
  intro t a ht
  by_cases hm : a ∈ ev.downs <;> simp [applyDown, hm, ht]

theorem upSystem_actions (ev : TickEvents) (s : CubeState) :
    (upSystem ev s).input.actions = s.input.actions := by
  unfold upSystem
  refine foldl_pres (P := fun t : CubeState => t.input.actions = s.input.actions) ?_ _ _ rfl
  intro t a ht
  by_cases hm : a ∈ ev.ups <;> simp [applyUp, hm, ht]

theorem upSystem_hover (ev : TickEvents) (s : CubeState) :
    (upSystem ev s).hover = s.hover := by
  unfold upSystem
  refine foldl_pres (P := fun t : CubeState => t.hover = s.hover) ?_ _ _ rfl
  intro t a ht
  by_cases hm : a ∈ ev.ups <;> simp [applyUp, hm, ht]

theorem hoverEnterSystem_input (ev : TickEvents) (s : CubeState) :
    (hoverEnterSystem ev s).input = s.input := by
  unfold hoverEnterSystem
  by_cases hm : ev.hoverEnter <;> simp [hm]

theorem hoverLeaveSystem_input (ev : TickEvents) (s : CubeState) :
    (hoverLeaveSystem ev s).input = s.input := by
  unfold hoverLeaveSystem
  by_cases hm : ev.hoverLeave <;> simp [hm]

theorem cubeTick_actions (ev : TickEvents) (s : CubeState) :
    (cubeTick ev s).input.actions = s.input.actions := by
  unfold cubeTick
  rw [hoverLeaveSystem_input, hoverEnterSystem_input, upSystem_actions,
    downSystem_actions]

theorem downSystem_nofire (ev : TickEvents) (s : CubeState) (hd : ev.downs = []) :
    downSystem ev s = s := by
  unfold downSystem
  refine foldl_fix ?_ _ _
  intro t a
  simp [applyDown, hd]

theorem upSystem_nofire (ev : TickEvents) (s : CubeState) (hu : ev.ups = []) :
    upSystem ev s = s := by
  unfold upSystem
  refine foldl_fix ?_ _ _
  intro t a
  simp [applyUp, hu]

theorem downSystem_fires (ev : TickEvents) (s : CubeState) (b : InputAction)
    (hb : b ∈ s.input.actions) (hd : ev.downs = [b]) :
    pressedAs b (downSystem ev s) := by
  unfold downSystem
  refine foldl_estab (P := pressedAs b) ?_ ?_ _ _ hb
  · intro t a ht
    by_cases hm : a ∈ ev.downs
    · have ha : a = b := by
        rw [hd] at hm
        simpa using hm
      subst ha
      simp [pressedAs, applyDown, hm]
    · simpa [applyDown, hm] using ht
  · intro t
    have hm : b ∈ ev.downs := by rw [hd]; simp
    simp [pressedAs, applyDown, hm]

theorem upSystem_fires (ev : TickEvents) (s : CubeState) (b : InputAction)
    (hb : b ∈ s.input.actions) (hu : b ∈ ev.ups) :
    releasedNeutral (upSystem ev s) := by
  unfold upSystem
  refine foldl_estab (P := releasedNeutral) ?_ ?_ _ _ hb
  · intro t a ht
    by_cases hm : a ∈ ev.ups
    · simp [releasedNeutral, applyUp, hm]
    · simpa [applyUp, hm] using ht
  · intro t
    simp [releasedNeutral, applyUp, hu]

theorem hoverSystems_neutral (ev : TickEvents) (t : CubeState)
    (hc : t.input.currentColor = -1)
    (ha : t.material.albedoColor = DEFAULT_COLOR) :
    (hoverLeaveSystem ev (hoverEnterSystem ev t)).material.albedoColor = DEFAULT_COLOR ∧
    (hoverLeaveSystem ev (hoverEnterSystem ev t)).input = t.input := by
  have hneg : ¬ (0 ≤ t.input.currentColor) := by rw [hc]; decide
  unfold hoverEnterSystem hoverLeaveSystem
  by_cases h1 : ev.hoverEnter <;> by_cases h2 : ev.hoverLeave <;>
    simp [h1, h2, hneg, ha]

theorem cubeTick_up_neutral (ev : TickEvents) (s : CubeState) (b : InputAction)
    (hb : b ∈ s.input.actions) (hd : ev.downs = []) (hu : b ∈ ev.ups) :
    (cubeTick ev s).material.albedoColor = DEFAULT_COLOR ∧
    (cubeTick ev s).input.isPressed = false ∧
    (cubeTick ev s).input.currentColor = -1 := by
  unfold cubeTick
  rw [downSystem_nofire ev s hd]
  obtain ⟨hp, hc, hm⟩ := upSystem_fires ev s b hb hu
  have halb : (upSystem ev s).material.albedoColor = DEFAULT_COLOR := by rw [hm]
  obtain ⟨h1, h2⟩ := hoverSystems_neutral ev (upSystem ev s) hc halb
  refine ⟨h1, ?_, ?_⟩
  · rw [h2, hp]
  · rw [h2, hc]

/-- Claim C1 as stated is false: run the bullet spawner algorithm with
one spawner of interval 1.0 s and lifetime 2.0 s at a fixed dt of 0.5 s
for 10 ticks; it spawns 5 bullets but does not destroy exactly the first
2 of them — the despawn check `globalTime >= deathTime` also fires for
the third bullet, whose death time is exactly 5.0 s at the 10th tick. -/
theorem C1_counterexample :
    ¬ ((poolRunDts c1Cfg c1Dts).nextId = 5 ∧
       (poolRunDts c1Cfg c1Dts).destroyedIds = [0, 1]) := by
  norm_num [poolRunDts, c1Cfg, c1Dts, poolInit, poolTick, poolTickFull, spawnPass]

/-- Claim C1 amended: under exactly that schedule the spawner has
spawned 5 bullets and destroyed exactly the first 3 of them, in order,
leaving the fourth and fifth alive. -/
theorem C1_amended :
    (poolRunDts c1Cfg c1Dts).nextId = 5 ∧
    (poolRunDts c1Cfg c1Dts).destroyedIds = [0, 1, 2] ∧
    (poolRunDts c1Cfg c1Dts).active.map (fun it => it.id) = [3, 4] := by
  norm_num [poolRunDts, c1Cfg, c1Dts, poolInit, poolTick, poolTickFull, spawnPass]

/-- Claim C2 as stated is false: the Exit handler leaves the stay
counter at its last value, so after the deliverable signal sequence
Enter, Stay, Exit the tracker is unoccupied with a counter of 1, and the
invariant that the counter is 0 whenever the volume is unoccupied fails
in a reachable state. -/
theorem C2_counterexample :
    (¬ ∀ sigs : List TriggerSignal,
        (stayRun sigs).occupied = false → (stayRun sigs).stayCounter = 0) ∧
    stayWellFormed stayInit [.enter, .stay, .exit] = true ∧
    (stayRun [.enter, .stay, .exit]).occupied = false ∧
    (stayRun [.enter, .stay, .exit]).stayCounter = 1 := by
  refine ⟨fun h => ?_, by decide, by decide, by decide⟩
  have h2 := h [.enter, .stay, .exit] (by decide)
  exact absurd h2 (by decide)

/-- Claim C2 amended: for every state and signal, the stay counter
resets to 0 on Enter, increments by exactly one on Stay, and is left
unchanged by Exit — so it is never decremented, only reset; since Exit
preserves the counter, the counter need not be 0 while unoccupied. -/
theorem C2_amended (s : StayState) (sig : TriggerSignal) :
    (stayStep s .enter).stayCounter = 0 ∧
    (stayStep s .stay).stayCounter = s.stayCounter + 1 ∧
    (stayStep s .exit).stayCounter = s.stayCounter ∧
    (stayStep s .exit).occupied = false ∧
    (stayStep s .enter).occupied = true ∧
    ((stayStep s sig).stayCounter = 0 ∨ s.stayCounter ≤ (stayStep s sig).stayCounter) := by
  refine ⟨rfl, rfl, rfl, rfl, rfl, ?_⟩
  cases sig
  · exact Or.inl rfl
  · exact Or.inr (Nat.le_succ _)
  · exact Or.inr (Nat.le_refl _)

/-- Claim C8: deleting the live box of the create/delete fixture resets
the tracked occupancy to false and removes the box, and the next
incarnation is created with the unoccupied visual, never a stale one. -/
theorem C8_delete_resets_occupancy (s : ToggleState)
    (h : s.currentBox.isSome = true) :
    (deleteTestBox s).isPlayerInside = false ∧
    (deleteTestBox s).currentBox = none ∧
    (createTestBox (deleteTestBox s)).currentBox = some TRIGGER_COLOR_OUTSIDE := by
  refine ⟨?_, ?_, ?_⟩ <;> simp [deleteTestBox, createTestBox, h]

/-- Witness for C8 at a state with a live box and a stale occupied
flag. -/
theorem C8_witness :
    ((⟨0, true, some TRIGGER_COLOR_INSIDE⟩ : ToggleState).currentBox.isSome = true) ∧
    ((deleteTestBox ⟨0, true, some TRIGGER_COLOR_INSIDE⟩).isPlayerInside = false ∧
     (deleteTestBox ⟨0, true, some TRIGGER_COLOR_INSIDE⟩).currentBox = none ∧
     (createTestBox (deleteTestBox ⟨0, true, some TRIGGER_COLOR_INSIDE⟩)).currentBox =
       some TRIGGER_COLOR_OUTSIDE) :=
  ⟨by decide, C8_delete_resets_occupancy ⟨0, true, some TRIGGER_COLOR_INSIDE⟩ (by decide)⟩

/-- Claim C9: invoking the fixture's delete with no live entity changes
nothing (the function is total, so nothing is raised), and in particular
a delete immediately after a delete is always a no-op. -/
theorem C9_double_delete_noop (s : ToggleState) (h : s.currentBox = none) :
    deleteTestBox s = s ∧
    ∀ t : ToggleState, deleteTestBox (deleteTestBox t) = deleteTestBox t := by
  constructor
  · simp [deleteTestBox, h]
  · intro t
    by_cases ht : t.currentBox.isSome = true
    · simp [deleteTestBox, ht]
    · simp [deleteTestBox, ht]

/-- Witness for C9 at the fixture's initial (absent) state. -/
theorem C9_witness :
    (toggleInit.currentBox = none) ∧
    (deleteTestBox toggleInit = toggleInit ∧
     ∀ t : ToggleState, deleteTestBox (deleteTestBox t) = deleteTestBox t) :=
  ⟨by decide, C9_double_delete_noop toggleInit (by decide)⟩

/-- Claim C7 as stated is false: the poll order required by the claim
places the spawner-timer system after the input and hover systems, but
the create/delete loop system is registered before all of them and so
runs first each tick. -/
theorem C7_counterexample : ¬ claimedPollOrder := by
  unfold claimedPollOrder
  decide

theorem hoverEnterSystem_nofire (ev : TickEvents) (s : CubeState)
    (h : ev.hoverEnter = false) : hoverEnterSystem ev s = s := by
  simp [hoverEnterSystem, h]

theorem hoverLeaveSystem_nofire (ev : TickEvents) (s : CubeState)
    (h : ev.hoverLeave = false) : hoverLeaveSystem ev s = s := by
  simp [hoverLeaveSystem, h]

theorem actionIndex_bounds : ∀ a : InputAction, actionIndex a = -1 ∨
    (0 ≤ actionIndex a ∧ actionIndex a < (INPUT_ACTIONS.length : Int)) := by
  decide

theorem actionIndex_inj : ∀ a b : InputAction, inTable a = true →
    inTable b = true → a ≠ b → actionIndex a ≠ actionIndex b := by
  decide

/-- Claim C3: with action A already pressed and not released, observing
a down command for action B overwrites the recorded active action: the
cube ends pressed with `currentColor` at B's table index, which differs
from A's (last-writer-wins, no queuing). -/
theorem C3_last_writer_wins (s : CubeState) (a b : InputAction)
    (ha : a ∈ s.input.actions) (hb : b ∈ s.input.actions)
    (ta : inTable a = true) (tb : inTable b = true) (hab : a ≠ b) :
    (cubeTick ⟨[b], [], false, false⟩
      (cubeTick ⟨[a], [], false, false⟩ s)).input.currentColor = actionIndex b ∧
    (cubeTick ⟨[b], [], false, false⟩
      (cubeTick ⟨[a], [], false, false⟩ s)).input.isPressed = true ∧
    actionIndex b ≠ actionIndex a := by
  have hinj : actionIndex b ≠ actionIndex a :=
    actionIndex_inj b a tb ta (fun h => hab h.symm)
  have hb1 : b ∈ (cubeTick ⟨[a], [], false, false⟩ s).input.actions := by
    rw [cubeTick_actions]
    exact hb
  have htick : cubeTick ⟨[b], [], false, false⟩ (cubeTick ⟨[a], [], false, false⟩ s) =
      downSystem ⟨[b], [], false, false⟩ (cubeTick ⟨[a], [], false, false⟩ s) := by
    unfold cubeTick
    rw [upSystem_nofire _ _ rfl, hoverEnterSystem_nofire _ _ rfl,
      hoverLeaveSystem_nofire _ _ rfl]
  obtain ⟨hp, hc, hm, hl⟩ := downSystem_fires ⟨[b], [], false, false⟩ _ b hb1 rfl
  rw [htick]
  exact ⟨hc, hp, hinj⟩

/-- Witness for C3: a cube registered for PRIMARY and SECONDARY,
pressing PRIMARY then SECONDARY without a release. -/
theorem C3_witness :
    (InputAction.IA_PRIMARY ∈
      (initialCube [.IA_PRIMARY, .IA_SECONDARY] false).input.actions) ∧
    (InputAction.IA_SECONDARY ∈
      (initialCube [.IA_PRIMARY, .IA_SECONDARY] false).input.actions) ∧
    inTable .IA_PRIMARY = true ∧
    inTable .IA_SECONDARY = true ∧
    InputAction.IA_PRIMARY ≠ .IA_SECONDARY ∧
    ((cubeTick ⟨[.IA_SECONDARY], [], false, false⟩
        (cubeTick ⟨[.IA_PRIMARY], [], false, false⟩
          (initialCube [.IA_PRIMARY, .IA_SECONDARY] false))).input.currentColor =
        actionIndex .IA_SECONDARY ∧
      (cubeTick ⟨[.IA_SECONDARY], [], false, false⟩
        (cubeTick ⟨[.IA_PRIMARY], [], false, false⟩
          (initialCube [.IA_PRIMARY, .IA_SECONDARY] false))).input.isPressed = true ∧
      actionIndex .IA_SECONDARY ≠ actionIndex .IA_PRIMARY) :=
  ⟨by decide, by decide, by decide, by decide, by decide,
    C3_last_writer_wins (initialCube [.IA_PRIMARY, .IA_SECONDARY] false)
      .IA_PRIMARY .IA_SECONDARY (by decide) (by decide) (by decide) (by decide)
      (by decide)⟩

/-- Claim C4: after a press of a registered action, any run of
hover-only ticks, and a tick observing the matching release (with any
hover events alongside each step), the cube's albedo is exactly the
neutral color again, and the press state is cleared. -/
theorem C4_release_restores_neutral (s : CubeState) (b : InputAction)
    (g1 g2 g3 g4 : Bool) (l : List (Bool × Bool)) (hb : b ∈ s.input.actions) :
    (cubeTick ⟨[], [b], g3, g4⟩
      (l.foldl (fun t p => cubeTick ⟨[], [], p.1, p.2⟩ t)
        (cubeTick ⟨[b], [], g1, g2⟩ s))).material.albedoColor = DEFAULT_COLOR ∧
    (cubeTick ⟨[], [b], g3, g4⟩
      (l.foldl (fun t p => cubeTick ⟨[], [], p.1, p.2⟩ t)
        (cubeTick ⟨[b], [], g1, g2⟩ s))).input.isPressed = false := by
  have hb2 : b ∈ (l.foldl (fun t p => cubeTick ⟨[], [], p.1, p.2⟩ t)
      (cubeTick ⟨[b], [], g1, g2⟩ s)).input.actions := by
    refine foldl_pres (P := fun t : CubeState => b ∈ t.input.actions) ?_ l _ ?_
    · intro t p ht
      rw [cubeTick_actions]
      exact ht
    · show b ∈ (cubeTick ⟨[b], [], g1, g2⟩ s).input.actions
      rw [cubeTick_actions]
      exact hb
  obtain ⟨h1, h2, h3⟩ :=
    cubeTick_up_neutral ⟨[], [b], g3, g4⟩ _ b hb2 rfl (List.mem_singleton.mpr rfl)
  exact ⟨h1, h2⟩

/-- Witness for C4: the master cube presses and releases POINTER with
hover enter/leave events interleaved and alongside both signals. -/
theorem C4_witness :
    (InputAction.IA_POINTER ∈ (initialCube [.IA_POINTER] true).input.actions) ∧
    ((cubeTick ⟨[], [.IA_POINTER], true, true⟩
        (([(true, false), (false, true)] : List (Bool × Bool)).foldl
          (fun t p => cubeTick ⟨[], [], p.1, p.2⟩ t)
          (cubeTick ⟨[.IA_POINTER], [], true, false⟩
            (initialCube [.IA_POINTER] true)))).material.albedoColor =
        DEFAULT_COLOR ∧
      (cubeTick ⟨[], [.IA_POINTER], true, true⟩
        (([(true, false), (false, true)] : List (Bool × Bool)).foldl
          (fun t p => cubeTick ⟨[], [], p.1, p.2⟩ t)
          (cubeTick ⟨[.IA_POINTER], [], true, false⟩
            (initialCube [.IA_POINTER] true)))).input.isPressed = false) :=
  ⟨by decide,
    C4_release_restores_neutral (initialCube [.IA_POINTER] true) .IA_POINTER
      true false true true [(true, false), (false, true)] (by decide)⟩

/-- Claim C7 amended: the per-tick execution order of the systems this
code registers is their registration order — the create/delete
spawner-timer system first, then the pointer DOWN, UP, HOVER_ENTER and
HOVER_LEAVE systems (trigger callbacks are dispatched by the SDK's own
trigger system, outside this code); a press and release of the same
action observed in one tick is still resolved as press-then-release,
because the DOWN system is registered before the UP system: the tick
ends unpressed and neutral while the press was recorded in the hover
label. -/
theorem C7_amended :
    sysIndex .createDeleteLoop < sysIndex .pointerDown ∧
    sysIndex .pointerDown < sysIndex .pointerUp ∧
    sysIndex .pointerUp < sysIndex .hoverEnterTag ∧
    sysIndex .hoverEnterTag < sysIndex .hoverLeaveTag ∧
    ∀ (s : CubeState) (b : InputAction), b ∈ s.input.actions →
      ((cubeTick ⟨[b], [b], false, false⟩ s).input.isPressed = false ∧
       (cubeTick ⟨[b], [b], false, false⟩ s).hover.lastAction = getActionName b ∧
       (cubeTick ⟨[b], [b], false, false⟩ s).material.albedoColor = DEFAULT_COLOR) := by
  refine ⟨by decide, by decide, by decide, by decide, ?_⟩
  intro s b hb
  have hcube : cubeTick ⟨[b], [b], false, false⟩ s =
      upSystem ⟨[b], [b], false, false⟩ (downSystem ⟨[b], [b], false, false⟩ s) := by
    unfold cubeTick
    rw [hoverEnterSystem_nofire _ _ rfl, hoverLeaveSystem_nofire _ _ rfl]
  obtain ⟨hp1, hc1, hm1, hl1⟩ := downSystem_fires ⟨[b], [b], false, false⟩ s b hb rfl
  have hb1 : b ∈ (downSystem ⟨[b], [b], false, false⟩ s).input.actions := by
    rw [downSystem_actions]
    exact hb
  obtain ⟨hp2, hc2, hm2⟩ := upSystem_fires ⟨[b], [b], false, false⟩
    (downSystem ⟨[b], [b], false, false⟩ s) b hb1 (List.mem_singleton.mpr rfl)
  rw [hcube]
  refine ⟨hp2, ?_, by rw [hm2]⟩
  rw [upSystem_hover, hl1]

/-- Witness for C7 amended: press-and-release of JUMP in one tick on a
fresh JUMP cube. -/
theorem C7_witness :
    (InputAction.IA_JUMP ∈ (initialCube [.IA_JUMP] false).input.actions) ∧
    ((cubeTick ⟨[.IA_JUMP], [.IA_JUMP], false, false⟩
        (initialCube [.IA_JUMP] false)).input.isPressed = false ∧
     (cubeTick ⟨[.IA_JUMP], [.IA_JUMP], false, false⟩
        (initialCube [.IA_JUMP] false)).hover.lastAction =
        getActionName .IA_JUMP ∧
     (cubeTick ⟨[.IA_JUMP], [.IA_JUMP], false, false⟩
        (initialCube [.IA_JUMP] false)).material.albedoColor = DEFAULT_COLOR) :=
  ⟨by decide, C7_amended.2.2.2.2 (initialCube [.IA_JUMP] false) .IA_JUMP (by decide)⟩

theorem specAlt_succ (n : Nat) : specAlternatingEvents (n + 1) =
    specAlternatingEvents n ++ [if n % 2 = 0 then .created else .deleted] := by
  simp [specAlternatingEvents, List.range_succ]

theorem toggleTick_delete (s : ToggleState) (h1 : s.timer = 0)
    (hb : s.currentBox.isSome = true) :
    toggleTick CREATE_DELETE_INTERVAL s =
      (⟨0, false, none⟩, some .deleted) := by
  unfold toggleTick CREATE_DELETE_INTERVAL deleteTestBox
  rw [h1]
  norm_num [hb]

theorem toggleTick_create (s : ToggleState) (h1 : s.timer = 0)
    (h2 : s.isPlayerInside = false) (hb : s.currentBox = none) :
    toggleTick CREATE_DELETE_INTERVAL s =
      (⟨0, false, some TRIGGER_COLOR_OUTSIDE⟩, some .created) := by
  unfold toggleTick CREATE_DELETE_INTERVAL createTestBox
  rw [h1]
  norm_num [hb, h2]

theorem toggleRun_closed (n : Nat) :
    (toggleRun n).1.timer = 0 ∧
    (toggleRun n).1.isPlayerInside = false ∧
    (toggleRun n).1.currentBox =
      (if n % 2 = 1 then some TRIGGER_COLOR_OUTSIDE else none) ∧
    (toggleRun n).2 = specAlternatingEvents n := by
  induction n with
  | zero =>
    refine ⟨rfl, rfl, rfl, ?_⟩
    simp [toggleRun, specAlternatingEvents]
  | succ n ih =>
    obtain ⟨h1, h2, h3, h4⟩ := ih
    have key : toggleRun (n + 1) =
        ((toggleTick CREATE_DELETE_INTERVAL (toggleRun n).1).1,
         (toggleRun n).2 ++ (toggleTick CREATE_DELETE_INTERVAL (toggleRun n).1).2.toList) :=
      rfl
    by_cases hn : n % 2 = 1
    · have hb : (toggleRun n).1.currentBox = some TRIGGER_COLOR_OUTSIDE := by
        rw [h3, if_pos hn]
      have htick := toggleTick_delete (toggleRun n).1 h1 (by rw [hb]; rfl)
      have hmod : ¬ ((n + 1) % 2 = 1) := by omega
      have hmod2 : ¬ (n % 2 = 0) := by omega
      rw [key, htick]
      refine ⟨rfl, rfl, ?_, ?_⟩
      · rw [if_neg hmod]
      · rw [h4, specAlt_succ, if_neg hmod2]
        rfl
    · have hb : (toggleRun n).1.currentBox = none := by
        rw [h3, if_neg hn]
      have htick := toggleTick_create (toggleRun n).1 h1 h2 hb
      have hmod : (n + 1) % 2 = 1 := by omega
      have hmod2 : n % 2 = 0 := by omega
      rw [key, htick]
      refine ⟨rfl, rfl, ?_, ?_⟩
      · rw [if_pos hmod]
      · rw [h4, specAlt_succ, if_pos hmod2]
        rfl

/-- Claim C5: the create/delete fixture, started absent with timer 0 and
ticked N times at dt equal to its interval, emits exactly N create and
destroy operations, strictly alternating starting with a create, and
ends with the entity existing exactly when N is odd. -/
theorem C5_toggle_alternates (n : Nat) :
    (toggleRun n).2 = specAlternatingEvents n ∧
    (toggleRun n).2.length = n ∧
    (toggleRun n).1.currentBox.isSome = decide (n % 2 = 1) := by
  obtain ⟨h1, h2, h3, h4⟩ := toggleRun_closed n
  refine ⟨h4, ?_, ?_⟩
  · rw [h4]
    simp [specAlternatingEvents]
  · rw [h3]
    by_cases hn : n % 2 = 1 <;> simp [hn]

theorem spawnPass_death (gt dt : ℚ) :
    ∀ (l : List (SpawnerCfg × ℚ)) (nid : Nat) (it : BulletItem),
      it ∈ (spawnPass gt dt l nid).2.1 →
      ∃ p ∈ l, it.deathTime = gt + p.1.lifetime := by
  intro l
  induction l with
  | nil =>
    intro nid it h
    simp [spawnPass] at h
  | cons p rest ih =>
    intro nid it h
    obtain ⟨cfg, tm⟩ := p
    by_cases hc : cfg.interval ≤ tm + dt
    · rw [spawnPass] at h
      simp only [hc, if_pos, List.mem_cons] at h
      rcases h with h | h
      · exact ⟨(cfg, tm), List.mem_cons_self _ _, by rw [h]⟩
      · obtain ⟨q, hq, he⟩ := ih (nid + 1) it h
        exact ⟨q, List.mem_cons_of_mem _ hq, he⟩
    · rw [spawnPass] at h
      simp only [hc, if_neg, if_false] at h
      obtain ⟨q, hq, he⟩ := ih nid it h
      exact ⟨q, List.mem_cons_of_mem _ hq, he⟩

/-- Claim C6: in one tick of the bullet spawner system the spawn pass
runs before the despawn pass, and since every spawner's lifetime is
strictly positive, each bullet spawned this tick records a death time
strictly beyond the tick's global time and therefore survives this
tick's despawn pass. -/
theorem C6_spawn_before_despawn (cfgs : List SpawnerCfg) (dt : ℚ)
    (s : PoolState) (hpos : ∀ cfg ∈ cfgs, 0 < cfg.lifetime) :
    ∀ it ∈ (poolTickFull cfgs dt s).2,
      (poolTickFull cfgs dt s).1.globalTime < it.deathTime ∧
      it ∈ (poolTickFull cfgs dt s).1.active := by
  intro it hit
  have hit2 : it ∈ (spawnPass (s.globalTime + dt) dt (cfgs.zip s.timers) s.nextId).2.1 :=
    hit
  obtain ⟨p, hp, he⟩ := spawnPass_death (s.globalTime + dt) dt _ _ it hit2
  have hcfg : p.1 ∈ cfgs := (List.of_mem_zip hp).1
  have hlt : s.globalTime + dt < it.deathTime := by
    rw [he]
    have := hpos p.1 hcfg
    linarith
  refine ⟨hlt, ?_⟩
  show it ∈ ((s.active ++ (spawnPass (s.globalTime + dt) dt (cfgs.zip s.timers) s.nextId).2.1).filter
    (fun x => decide (s.globalTime + dt < x.deathTime)))
  refine List.mem_filter.mpr ⟨List.mem_append_right _ hit2, ?_⟩
  exact decide_eq_true hlt

/-- Witness for C6: the interval-1 lifetime-2 spawner fires on a fresh
pool ticked once with dt 1. -/
theorem C6_witness :
    (∀ cfg ∈ c1Cfg, 0 < cfg.lifetime) ∧
    (∀ it ∈ (poolTickFull c1Cfg 1 (poolInit c1Cfg)).2,
      (poolTickFull c1Cfg 1 (poolInit c1Cfg)).1.globalTime < it.deathTime ∧
      it ∈ (poolTickFull c1Cfg 1 (poolInit c1Cfg)).1.active) :=
  ⟨by norm_num [c1Cfg],
    C6_spawn_before_despawn c1Cfg 1 (poolInit c1Cfg) (by norm_num [c1Cfg])⟩

theorem cube_inv_tick (ev : TickEvents) (t : CubeState) (h : cubeColorInv t) :
    cubeColorInv (cubeTick ev t) := by
  unfold cubeTick
  have h1 : cubeColorInv (downSystem ev t) := by
    unfold downSystem
    refine foldl_pres (P := cubeColorInv) ?_ _ _ h
    intro u a hu
    by_cases hm : a ∈ ev.downs
    · simpa [cubeColorInv, applyDown, hm] using actionIndex_bounds a
    · simpa [applyDown, hm] using hu
  have h2 : cubeColorInv (upSystem ev (downSystem ev t)) := by
    unfold upSystem
    refine foldl_pres (P := cubeColorInv) ?_ _ _ h1
    intro u a hu
    by_cases hm : a ∈ ev.ups
    · simp [cubeColorInv, applyUp, hm]
    · simpa [applyUp, hm] using hu
  unfold cubeColorInv at h2 ⊢
  rw [hoverLeaveSystem_input, hoverEnterSystem_input]
  exact h2

/-- Claim C10: in every reachable cube state, `currentColor` is either
-1 or a valid index into `INPUT_ACTIONS`, so the
`INPUT_ACTIONS[currentColor]` access the hover handlers perform when
`currentColor >= 0` is always in bounds. -/
theorem C10_currentColor_in_bounds (s : CubeState) (h : ReachableCube s) :
    (s.input.currentColor = -1 ∨
      (0 ≤ s.input.currentColor ∧
       s.input.currentColor < (INPUT_ACTIONS.length : Int))) ∧
    (0 ≤ s.input.currentColor →
      (colorAt s.input.currentColor).isSome = true) := by
  have hinv : cubeColorInv s := by
    induction h with
    | init actions isMaster => exact Or.inl rfl
    | tick ev t _ iht => exact cube_inv_tick ev t iht
  refine ⟨hinv, fun hle => ?_⟩
  rcases hinv with h1 | ⟨h2, h3⟩
  · rw [h1] at hle
    exact absurd hle (by decide)
  · unfold colorAt
    cases hg : INPUT_ACTIONS.get? s.input.currentColor.toNat with
    | none =>
      have hlen := List.get?_eq_none.mp hg
      omega
    | some info => simp

/-- Witness for C10 at a freshly created cube. -/
theorem C10_witness :
    ReachableCube (initialCube [.IA_POINTER] false) ∧
    (((initialCube [.IA_POINTER] false).input.currentColor = -1 ∨
       (0 ≤ (initialCube [.IA_POINTER] false).input.currentColor ∧
        (initialCube [.IA_POINTER] false).input.currentColor <
          (INPUT_ACTIONS.length : Int))) ∧
     (0 ≤ (initialCube [.IA_POINTER] false).input.currentColor →
       (colorAt (initialCube [.IA_POINTER] false).input.currentColor).isSome = true)) :=
  ⟨ReachableCube.init [.IA_POINTER] false,
   C10_currentColor_in_bounds (initialCube [.IA_POINTER] false)
     (ReachableCube.init [.IA_POINTER] false)⟩

end MobileScene
